import Mathlib

/-!
Verification of the equipment-analysis backend.

Shallow embedding of the Python source:
* src/backend/advanced_equipment_analysis.py
  (SmartEquipmentPositioning, EquipmentStatusDashboard)
* src/backend/app.py (check_alerts)
* src/backend/space_station_features.py (generate_crew_safety_report)

Python floats are modelled as rationals, timestamps as rational epoch
seconds, image dimensions as integers (their Python type hint), and
Python exceptions / error-dict returns as dedicated result constructors.
-/

namespace EquipAnalysis

/-- Enum ConfidenceLevel from advanced_equipment_analysis.py. -/
inductive ConfidenceLevel where
  | HIGH
  | MEDIUM
  | LOW
  | UNCERTAIN
deriving DecidableEq, Repr

/-- Enum EquipmentStatus from advanced_equipment_analysis.py. -/
inductive EquipmentStatus where
  | AVAILABLE
  | NEEDS_REVIEW
  | MISSING
  | CRITICAL
deriving DecidableEq, Repr

/-- A detection record coming from the vision model: label, confidence,
bounding box in pixel units. -/
structure Detection where
  label : String
  confidence : ℚ
  bbox : List ℚ
deriving DecidableEq, Repr

/-- Action of `label.lower().replace(' ', '_')` on one character: the
pattern of the replace is the single character space, so the whole
normalisation is this map applied character by character. -/
def normalizeChar (c : Char) : Char :=
  if c = ' ' then '_' else c.toLower

/-- Label normalisation used throughout the source:
`label.lower().replace(' ', '_')`. -/
def normalizeLabel (s : String) : String :=
  ⟨s.data.map normalizeChar⟩

/-- Result dict of SmartEquipmentPositioning._analyze_accessibility. -/
structure Accessibility where
  score : ℚ
  edgeDistance : ℚ
  heightAppropriateness : ℚ
  sizeVisibility : ℚ
  assessment : String
deriving DecidableEq, Repr

/-- SmartEquipmentPositioning._analyze_accessibility (the `requirements`
parameter is never read by the Python body, so it is omitted here). -/
def analyzeAccessibility (centerX centerY size : ℚ) : Accessibility :=
  let edgeDistance := min (min centerX (1 - centerX)) (min centerY (1 - centerY))
  let heightScore := 1 - |centerY - 0.6|
  let sizeScore := min 1 (size * 5)
  let score := (edgeDistance + heightScore + sizeScore) / 3
  { score := score
    edgeDistance := edgeDistance
    heightAppropriateness := heightScore
    sizeVisibility := sizeScore
    assessment :=
      if score > 0.7 then "Good"
      else if score > 0.4 then "Needs Improvement"
      else "Poor" }

/-- SmartEquipmentPositioning._calculate_placement_score (again the unused
`requirements` parameter is omitted). -/
def calculatePlacementScore (centerX centerY size confidence : ℚ) : ℚ :=
  let accessibility := min (min centerX (1 - centerX)) (min centerY (1 - centerY)) * 2
  let visibility := min 1 (size * 3) * (1 - |centerY - 0.5|)
  min 1 (accessibility * 0.3 + visibility * 0.3 + confidence * 0.4)

/-- Analysis dict returned by SmartEquipmentPositioning.analyze_position on
the success path. -/
structure PositionAnalysis where
  equipmentType : String
  confidence : ℚ
  centerX : ℚ
  centerY : ℚ
  relativeSize : ℚ
  accessibility : Accessibility
  placementScore : ℚ
  recommendations : List String
  flags : List String
deriving DecidableEq, Repr

/-- SmartEquipmentPositioning._generate_positioning_recommendations. -/
def generatePositioningRecommendations (a : PositionAnalysis) : List String :=
  (if a.accessibility.heightAppropriateness < 0.5 then
    (if a.centerY < 0.3 then
      ["Equipment positioned too high - consider lowering for better crew access"]
    else if a.centerY > 0.8 then
      ["Equipment positioned too low - may be difficult to access in microgravity"]
    else [])
  else []) ++
  (if a.accessibility.edgeDistance < 0.2 then
    ["Equipment too close to image edge - may indicate poor mounting location"]
  else []) ++
  (if a.relativeSize < 0.01 then
    ["Equipment appears small in frame - may be too far from camera or poorly positioned"]
  else []) ++
  (if a.accessibility.score < 0.5 then
    ["Overall accessibility is poor - consider repositioning equipment"]
  else [])

/-- The analysis dict built by analyze_position once the bbox has been
unpacked and the divisions have succeeded. -/
def mkAnalysis (label : String) (confidence x y w h : ℚ) (imgW imgH : ℤ) :
    PositionAnalysis :=
  let centerX := (x + w / 2) / (imgW : ℚ)
  let centerY := (y + h / 2) / (imgH : ℚ)
  let bboxArea := (w * h) / ((imgW : ℚ) * (imgH : ℚ))
  let base : PositionAnalysis :=
    { equipmentType := normalizeLabel label
      confidence := confidence
      centerX := centerX
      centerY := centerY
      relativeSize := bboxArea
      accessibility := analyzeAccessibility centerX centerY bboxArea
      placementScore := calculatePlacementScore centerX centerY bboxArea confidence
      recommendations := []
      flags := [] }
  let confFlags : List String :=
    if confidence < 0.6 then ["LOW_CONFIDENCE_DETECTION"]
    else if confidence < 0.8 then ["MEDIUM_CONFIDENCE_DETECTION"]
    else []
  let confRecs : List String :=
    if confidence < 0.6 then
      ["Manual verification required - detection confidence below 60%"]
    else if confidence < 0.8 then
      ["Visual confirmation recommended - detection confidence below 80%"]
    else []
  let posRecs : List String :=
    if base.placementScore < 0.7 then generatePositioningRecommendations base else []
  { base with flags := confFlags, recommendations := confRecs ++ posRecs }

/-- Outcome of SmartEquipmentPositioning.analyze_position: the error dict for
a malformed bbox, the ZeroDivisionError Python raises when an image dimension
is zero, or the analysis dict. -/
inductive AnalyzeResult where
  | invalidBBox
  | zeroDivisionError
  | ok (a : PositionAnalysis)
deriving DecidableEq, Repr

/-- SmartEquipmentPositioning.analyze_position. The Python body checks only
`len(bbox) != 4`; it then divides by the image dimensions unconditionally,
so a zero dimension raises ZeroDivisionError and negative dimensions are
accepted. -/
def analyzePosition (detection : Detection) (imageDims : ℤ × ℤ) : AnalyzeResult :=
  match detection.bbox with
  | [x, y, w, h] =>
    if imageDims.1 = 0 ∨ imageDims.2 = 0 then .zeroDivisionError
    else .ok (mkAnalysis detection.label detection.confidence x y w h imageDims.1 imageDims.2)
  | _ => .invalidBBox

/-- Projection used to state facts about the success payload. -/
def okAnalysis : AnalyzeResult → Option PositionAnalysis
  | .ok a => some a
  | _ => none

/-- Confidence-tier decision at the top of
EquipmentStatusDashboard.update_equipment_detection. -/
def classifyConfidence (confidence : ℚ) : ConfidenceLevel :=
  if confidence ≥ 0.8 then .HIGH
  else if confidence ≥ 0.6 then .MEDIUM
  else if confidence ≥ 0.5 then .LOW
  else .UNCERTAIN

/-- Status decision of update_equipment_detection: an if / elif / else
chain evaluated in order. -/
def decideStatus (level : ConfidenceLevel) (placementScore : ℚ) : EquipmentStatus :=
  if level = .HIGH ∧ placementScore > 0.7 then .AVAILABLE
  else if (level = .MEDIUM ∨ level = .LOW) ∨ placementScore ≤ 0.7 then .NEEDS_REVIEW
  else .CRITICAL

/-- History entry appended by update_equipment_detection, with the stored
analysis dict reduced to the one field later readers use
(`analysis.get('placement_score', 0.5)`); timestamps are epoch seconds. -/
structure HistoryEntry where
  timestamp : ℚ
  confidence : ℚ
  bbox : List ℚ
  imagePath : String
  placementScore : ℚ
deriving DecidableEq, Repr

/-- EquipmentStatusDashboard.max_history_per_equipment. -/
def maxHistoryPerEquipment : ℕ := 100

/-- History maintenance of update_equipment_detection: append, then if the
length exceeds 100 keep only the last 100 (`history[-100:]`). -/
def appendHistory (hist : List HistoryEntry) (entry : HistoryEntry) : List HistoryEntry :=
  let h2 := hist ++ [entry]
  if h2.length > maxHistoryPerEquipment then h2.drop (h2.length - maxHistoryPerEquipment)
  else h2

/-- History of one equipment kind after a sequence of updates. -/
def applyHistoryUpdates (hist : List HistoryEntry) (entries : List HistoryEntry) :
    List HistoryEntry :=
  entries.foldl appendHistory hist

/-- Per-kind state record written by update_equipment_detection into
`self.equipment_status[equipment_type]`. -/
structure EquipmentState where
  status : EquipmentStatus
  confidenceLevel : ConfidenceLevel
  confidence : ℚ
  lastSeen : ℚ
  lastImage : String
  placementScore : ℚ
  detectionCount : ℕ
deriving DecidableEq, Repr

/-- EquipmentStatusDashboard.update_equipment_detection restricted to one
equipment kind: given the previous state and history for that kind it
returns the new state record and the new history list. -/
def updateEquipmentDetection (now : ℚ) (detection : Detection) (imagePath : String)
    (analysisPlacementScore : ℚ) (prev : Option EquipmentState)
    (hist : List HistoryEntry) : EquipmentState × List HistoryEntry :=
  let confidence := detection.confidence
  let level := classifyConfidence confidence
  let status := decideStatus level analysisPlacementScore
  let newState : EquipmentState :=
    { status := status
      confidenceLevel := level
      confidence := confidence
      lastSeen := now
      lastImage := imagePath
      placementScore := analysisPlacementScore
      detectionCount := (match prev with | some p => p.detectionCount | none => 0) + 1 }
  let entry : HistoryEntry :=
    { timestamp := now
      confidence := confidence
      bbox := detection.bbox
      imagePath := imagePath
      placementScore := analysisPlacementScore }
  (newState, appendHistory hist entry)

/-- The keys of SmartEquipmentPositioning.EQUIPMENT_REQUIREMENTS in
insertion order; get_equipment_status_summary iterates over them. -/
def equipmentKinds : List String :=
  ["fire_extinguisher", "oxygen_tank", "first_aid_box", "nitrogen_tank",
   "fire_alarm", "safety_switch_panel", "emergency_phone"]

/-- The fields of a stored per-kind status record that the tally loop of
get_equipment_status_summary reads. -/
structure StoredState where
  confidenceLevel : ConfidenceLevel
  status : EquipmentStatus
deriving DecidableEq, Repr

/-- Tally loop of get_equipment_status_summary over one kind: an `if` on the
tier followed by an `elif` on the status. -/
def tallyStep (store : List (String × StoredState)) (acc : ℕ × ℕ) (kind : String) :
    ℕ × ℕ :=
  match store.lookup kind with
  | none => acc
  | some s =>
    if s.confidenceLevel = .HIGH then (acc.1 + 1, acc.2)
    else if s.status = .NEEDS_REVIEW then (acc.1, acc.2 + 1)
    else acc

/-- Recursion over the catalog kinds performing the tally loop. -/
def tallyGo (store : List (String × StoredState)) :
    List String → ℕ × ℕ → ℕ × ℕ
  | [], acc => acc
  | k :: rest, acc => tallyGo store rest (tallyStep store acc k)

/-- The pair (high_confidence_detections, needs_review) computed by
get_equipment_status_summary. -/
def tallyCounts (store : List (String × StoredState)) : ℕ × ℕ :=
  tallyGo store equipmentKinds (0, 0)

/-- Seconds in one day, for the `timedelta(days=days)` cutoff. -/
def secondsPerDay : ℚ := 86400

/-- Trends dict returned by EquipmentStatusDashboard.get_equipment_trends. -/
structure Trends where
  equipmentType : String
  periodDays : ℚ
  totalDetections : ℕ
  averageConfidence : ℚ
  confidenceTrend : String
  averagePlacementScore : ℚ
  highConfidenceDetections : ℕ
  lowConfidenceDetections : ℕ
  detectionFrequency : ℚ
  latestDetectionTimestamp : ℚ
  consistencyScore : ℚ
deriving DecidableEq, Repr

/-- Trend computation of get_equipment_trends on the already-filtered
recent history: `none` models the empty-window error dict; on a non-empty
window the trends dict is built exactly as in the source
(`max`/`min`/`sum` over the window confidences via left folds from the
head, as Python's builtins compute them). -/
def trendsOfRecent (kind : String) (days : ℚ) : List HistoryEntry → Option Trends
  | [] => none
  | e0 :: rest =>
    some
      { equipmentType := kind
        periodDays := days
        totalDetections := rest.length + 1
        averageConfidence :=
          (e0.confidence :: rest.map (fun e => e.confidence)).sum / ((rest.length + 1 : ℕ) : ℚ)
        confidenceTrend :=
          if (e0.confidence :: rest.map (fun e => e.confidence)).getLastD 0 > e0.confidence
          then "improving" else "declining"
        averagePlacementScore :=
          (e0.placementScore :: rest.map (fun e => e.placementScore)).sum /
            ((rest.length + 1 : ℕ) : ℚ)
        highConfidenceDetections :=
          ((e0.confidence :: rest.map (fun e => e.confidence)).filter
            (fun c => decide (c ≥ 0.8))).length
        lowConfidenceDetections :=
          ((e0.confidence :: rest.map (fun e => e.confidence)).filter
            (fun c => decide (c < 0.6))).length
        detectionFrequency := ((rest.length + 1 : ℕ) : ℚ) / days
        latestDetectionTimestamp := ((e0 :: rest).getLastD e0).timestamp
        consistencyScore :=
          1 - (rest.foldl (fun m e => max m e.confidence) e0.confidence -
               rest.foldl (fun m e => min m e.confidence) e0.confidence) }

/-- EquipmentStatusDashboard.get_equipment_trends. `none` models the two
error dicts (kind absent from the history store, or no entry inside the
window); `datetime` values are epoch seconds. -/
def getEquipmentTrends (store : List (String × List HistoryEntry)) (kind : String)
    (now days : ℚ) : Option Trends :=
  match store.lookup kind with
  | none => none
  | some history =>
    trendsOfRecent kind days
      (history.filter (fun e => decide (now - days * secondsPerDay ≤ e.timestamp)))

/-- Alert rule dict handled by app.py (`load_alerts` entries). -/
structure AlertRule where
  id : String
  name : String
  label : String
  minConfidence : ℚ
  active : Bool
deriving DecidableEq, Repr

/-- Triggered-alert record appended by check_alerts; the timestamp is kept
abstract as the string `datetime.now().isoformat()` would produce. -/
structure TriggeredAlert where
  alertId : String
  alertName : String
  detectedLabel : String
  confidence : ℚ
  timestamp : String
deriving DecidableEq, Repr

/-- Match condition of the inner loop of check_alerts:
`detection['label'].lower() == target_label and
detection['confidence'] >= min_confidence`. -/
def ruleMatches (rule : AlertRule) (d : Detection) : Bool :=
  d.label.data.map Char.toLower == rule.label.data.map Char.toLower &&
  decide (rule.minConfidence ≤ d.confidence)

/-- Record built when a rule fires. -/
def mkTriggered (now : String) (rule : AlertRule) (d : Detection) : TriggeredAlert :=
  { alertId := rule.id
    alertName := rule.name
    detectedLabel := d.label
    confidence := d.confidence
    timestamp := now }

/-- Inner loop of check_alerts: scan the batch and fire on the first
matching detection (the Python `break`). -/
def firstTrigger (now : String) (rule : AlertRule) : List Detection → Option TriggeredAlert
  | [] => none
  | d :: rest =>
    if ruleMatches rule d then some (mkTriggered now rule d)
    else firstTrigger now rule rest

/-- app.py check_alerts: outer loop over the configured rules, skipping
inactive ones (`alert.get('active', True)`). -/
def checkAlerts (now : String) (alerts : List AlertRule) (detections : List Detection) :
    List TriggeredAlert :=
  match alerts with
  | [] => []
  | a :: rest =>
    if !a.active then checkAlerts now rest detections
    else
      match firstTrigger now a detections with
      | some t => t :: checkAlerts now rest detections
      | none => checkAlerts now rest detections

/-- Enum Priority from space_station_features.py. -/
inductive Priority where
  | CRITICAL
  | HIGH
  | MEDIUM
  | LOW
deriving DecidableEq, Repr

/-- SpaceStationEquipment.EQUIPMENT_CONFIG restricted to the criticality
field, in insertion order (the other fields are not read by
generate_crew_safety_report's scoring). -/
def equipmentConfig : List (String × Priority) :=
  [("fire_extinguisher", .CRITICAL), ("oxygen_tank", .CRITICAL),
   ("nitrogen_tank", .HIGH), ("first_aid_box", .HIGH), ("fire_alarm", .CRITICAL),
   ("safety_switch_panel", .CRITICAL), ("emergency_phone", .HIGH)]

/-- One detection inside a stored history snapshot: only the label is read
by generate_crew_safety_report. -/
structure LabeledDetection where
  label : String
deriving DecidableEq, Repr

/-- One element of the detections_history list passed to
generate_crew_safety_report. -/
structure Snapshot where
  detections : List LabeledDetection
  timestamp : String
deriving DecidableEq, Repr

/-- Per-kind status string assigned by generate_crew_safety_report. -/
inductive ReportStatus where
  | AVAILABLE
  | CONCERNING
  | CRITICAL
deriving DecidableEq, Repr

/-- Whether a snapshot contains a detection whose normalised label equals
the equipment kind. -/
def snapshotMentions (kind : String) (s : Snapshot) : Bool :=
  s.detections.any (fun det => normalizeLabel det.label == kind)

/-- `detections_history[-50:]` filtered to the snapshots mentioning the
kind. -/
def recentFor (historyList : List Snapshot) (kind : String) : List Snapshot :=
  (historyList.drop (historyList.length - 50)).filter (snapshotMentions kind)

/-- `detection_rate = len(recent) / min(50, len(detections_history)) if
detections_history else 0`. -/
def detectionRateFor (historyList : List Snapshot) (kind : String) : ℚ :=
  if historyList.isEmpty then 0
  else ((recentFor historyList kind).length : ℚ) / ((min 50 historyList.length : ℕ) : ℚ)

/-- Per-kind status thresholds of generate_crew_safety_report. -/
def reportStatusFor (rate : ℚ) : ReportStatus :=
  if rate > 0.8 then .AVAILABLE
  else if rate > 0.5 then .CONCERNING
  else .CRITICAL

/-- Per-kind entry of the report's equipment_status dict. -/
structure EquipmentReportEntry where
  equipment : String
  detectionRate : ℚ
  criticality : Priority
  lastDetected : Option String
  status : ReportStatus
deriving DecidableEq, Repr

/-- One recommendation entry of the report. -/
structure Recommendation where
  priority : String
  action : String
  rationale : String
deriving DecidableEq, Repr

/-- The standing routine recommendation always appended last. -/
def routineRecommendation : Recommendation :=
  { priority := "ROUTINE"
    action := "Conduct daily equipment inventory using AI detection system"
    rationale := "Maintain continuous safety equipment awareness" }

/-- The parts of the report dict the core computes (ids and generation
times are fresh external data). -/
structure SafetyReport where
  equipmentStatus : List (String × EquipmentReportEntry)
  recommendations : List Recommendation
  overallSafetyScore : ℤ
deriving DecidableEq, Repr

/-- The per-kind status entry built inside the loop of
generate_crew_safety_report. -/
def reportEntryFor (historyList : List Snapshot) (kc : String × Priority) :
    EquipmentReportEntry :=
  { equipment := kc.1
    detectionRate := detectionRateFor historyList kc.1
    criticality := kc.2
    lastDetected := (recentFor historyList kc.1).getLast?.map (fun s => s.timestamp)
    status := reportStatusFor (detectionRateFor historyList kc.1) }

/-- Score decrement applied per kind: 20 for CRITICAL, 10 for CONCERNING,
nothing otherwise. -/
def penaltyFor (st : ReportStatus) : ℤ :=
  if st = .CRITICAL then 20 else if st = .CONCERNING then 10 else 0

/-- Loop body of generate_crew_safety_report: record the per-kind entry and
decrement the running score. -/
def reportStep (historyList : List Snapshot)
    (acc : List (String × EquipmentReportEntry) × ℤ) (kc : String × Priority) :
    List (String × EquipmentReportEntry) × ℤ :=
  (acc.1 ++ [(kc.1, reportEntryFor historyList kc)],
   acc.2 - penaltyFor (reportEntryFor historyList kc).status)

/-- space_station_features.generate_crew_safety_report. -/
def generateCrewSafetyReport (historyList : List Snapshot) : SafetyReport :=
  let res := equipmentConfig.foldl (reportStep historyList) ([], 100)
  let criticalEquipment :=
    (res.1.filter (fun p => decide (p.2.status = .CRITICAL))).map (fun p => p.1)
  let recs :=
    (if criticalEquipment.isEmpty then []
     else
       [{ priority := "IMMEDIATE"
          action := "Locate and verify: " ++ String.intercalate ", " criticalEquipment
          rationale := "Critical safety equipment not consistently detected" }]) ++
    [routineRecommendation]
  { equipmentStatus := res.1
    recommendations := recs
    overallSafetyScore := res.2 }

/-! ## Helper lemmas -/

/-- Keeping the last 100 entries of a list, the invariant shape reached by
the history maintenance code. -/
def lastCap (l : List HistoryEntry) : List HistoryEntry :=
  if l.length > 100 then l.drop (l.length - 100) else l

theorem lastCap_of_le (l : List HistoryEntry) (h : l.length ≤ 100) : lastCap l = l := by
  unfold lastCap
  rw [if_neg (by omega)]

theorem lastCap_of_gt (l : List HistoryEntry) (h : 100 < l.length) :
    lastCap l = l.drop (l.length - 100) := by
  unfold lastCap
  rw [if_pos (by omega)]

theorem length_lastCap (l : List HistoryEntry) : (lastCap l).length = min l.length 100 := by
  unfold lastCap
  split_ifs with h <;> simp <;> omega

theorem appendHistory_eq_lastCap (h : List HistoryEntry) (e : HistoryEntry) :
    appendHistory h e = lastCap (h ++ [e]) := rfl

theorem lastCap_append_single (l : List HistoryEntry) (e : HistoryEntry) :
    lastCap (lastCap l ++ [e]) = lastCap (l ++ [e]) := by
  by_cases h : l.length ≤ 100
  · rw [lastCap_of_le l h]
  · push_neg at h
    rw [lastCap_of_gt l h]
    have hd : (l.drop (l.length - 100)).length = 100 := by
      simp
      omega
    rw [lastCap_of_gt (l.drop (l.length - 100) ++ [e]) (by simp [hd])]
    rw [lastCap_of_gt (l ++ [e]) (by simp; omega)]
    have h1 : (l.drop (l.length - 100) ++ [e]).length - 100 = 1 := by simp [hd]
    have h2 : (l ++ [e]).length - 100 = l.length + 1 - 100 := by simp
    rw [h1, h2]
    rw [List.drop_append_of_le_length (by omega : 1 ≤ (l.drop (l.length - 100)).length)]
    rw [List.drop_drop]
    rw [List.drop_append_of_le_length (by omega : l.length + 1 - 100 ≤ l.length)]
    have h3 : l.length - 100 + 1 = l.length + 1 - 100 := by omega
    rw [h3]

theorem applyHistoryUpdates_lastCap (es : List HistoryEntry) :
    ∀ l, applyHistoryUpdates (lastCap l) es = lastCap (l ++ es) := by
  induction es with
  | nil => intro l; simp [applyHistoryUpdates]
  | cons e es ih =>
    intro l
    show applyHistoryUpdates (appendHistory (lastCap l) e) es = _
    rw [appendHistory_eq_lastCap, lastCap_append_single]
    have he : lastCap (l ++ [e]) = lastCap (l ++ [e]) := rfl
    calc applyHistoryUpdates (lastCap (l ++ [e])) es
        = lastCap ((l ++ [e]) ++ es) := ih (l ++ [e])
      _ = lastCap (l ++ e :: es) := by simp

theorem applyHistoryUpdates_nil_eq (es : List HistoryEntry) :
    applyHistoryUpdates [] es = lastCap es := by
  have h := applyHistoryUpdates_lastCap es []
  rw [lastCap_of_le [] (by simp)] at h
  simpa using h

/-- A concrete history entry used for instantiating universally quantified
statements. -/
def sampleHistoryEntry : HistoryEntry :=
  { timestamp := 1, confidence := 1, bbox := [], imagePath := "img", placementScore := 1 }

/-! ## Claim theorems -/

/-- C2: after any sequence of updates the stored history of a kind is at
most 100 long, and after more than 100 updates it is exactly the most
recent 100 entries in insertion (chronological, oldest-first) order. -/
theorem claim2_history_capacity (es : List HistoryEntry) :
    (applyHistoryUpdates [] es).length ≤ 100 ∧
    (100 < es.length → applyHistoryUpdates [] es = es.drop (es.length - 100)) := by
  rw [applyHistoryUpdates_nil_eq]
  constructor
  · rw [length_lastCap]; omega
  · intro h
    exact lastCap_of_gt es h

/-- Witness for C2 at a concrete run of 101 updates. -/
theorem claim2_history_capacity_witness :
    100 < (List.replicate 101 sampleHistoryEntry).length ∧
    applyHistoryUpdates [] (List.replicate 101 sampleHistoryEntry) =
      (List.replicate 101 sampleHistoryEntry).drop
        ((List.replicate 101 sampleHistoryEntry).length - 100) :=
  ⟨by simp, (claim2_history_capacity _).2 (by simp)⟩

/-- C5: the confidence tiers are decided with closed lower bounds at
0.8 / 0.6 / 0.5, every value getting exactly one tier. -/
theorem claim5_confidence_tiers (c : ℚ) :
    (0.8 ≤ c → classifyConfidence c = .HIGH) ∧
    (0.6 ≤ c → c < 0.8 → classifyConfidence c = .MEDIUM) ∧
    (0.5 ≤ c → c < 0.6 → classifyConfidence c = .LOW) ∧
    (c < 0.5 → classifyConfidence c = .UNCERTAIN) ∧
    classifyConfidence 0.8 = .HIGH ∧
    classifyConfidence 0.79999 = .MEDIUM ∧
    classifyConfidence 0.6 = .MEDIUM ∧
    classifyConfidence 0.5 = .LOW ∧
    classifyConfidence 0.49999 = .UNCERTAIN := by
  refine ⟨?_, ?_, ?_, ?_, ?_, ?_, ?_, ?_, ?_⟩
  · intro h
    unfold classifyConfidence
    split_ifs <;> first | rfl | linarith
  · intro h1 h2
    unfold classifyConfidence
    split_ifs <;> first | rfl | linarith
  · intro h1 h2
    unfold classifyConfidence
    split_ifs <;> first | rfl | linarith
  · intro h
    unfold classifyConfidence
    split_ifs <;> first | rfl | linarith
  all_goals unfold classifyConfidence
  all_goals norm_num

/-- Witness for C5 at the tier boundaries and interiors. -/
theorem claim5_confidence_tiers_witness :
    ((0.6 : ℚ) ≤ 0.7 ∧ (0.7 : ℚ) < 0.8 ∧ classifyConfidence 0.7 = .MEDIUM) ∧
    ((0.5 : ℚ) ≤ 0.55 ∧ (0.55 : ℚ) < 0.6 ∧ classifyConfidence 0.55 = .LOW) ∧
    ((0.8 : ℚ) ≤ 0.9 ∧ classifyConfidence 0.9 = .HIGH) ∧
    ((0.2 : ℚ) < 0.5 ∧ classifyConfidence 0.2 = .UNCERTAIN) :=
  ⟨⟨by norm_num, by norm_num,
      (claim5_confidence_tiers 0.7).2.1 (by norm_num) (by norm_num)⟩,
   ⟨by norm_num, by norm_num,
      (claim5_confidence_tiers 0.55).2.2.1 (by norm_num) (by norm_num)⟩,
   ⟨by norm_num, (claim5_confidence_tiers 0.9).1 (by norm_num)⟩,
   ⟨by norm_num, (claim5_confidence_tiers 0.2).2.2.2.1 (by norm_num)⟩⟩

/-- C1: the status transition is the ordered decision of the source, and an
UNCERTAIN-tier detection with placement score above 0.7 is CRITICAL; in
particular confidence 0.45 with placement score 0.9 is CRITICAL and not
NEEDS_REVIEW. -/
theorem claim1_status_transition (nowT : ℚ) (d : Detection) (img : String) (p : ℚ)
    (prev : Option EquipmentState) (hist : List HistoryEntry) :
    ((updateEquipmentDetection nowT d img p prev hist).1.status =
      decideStatus (classifyConfidence d.confidence) p) ∧
    (∀ c q : ℚ, classifyConfidence c = .HIGH → 0.7 < q →
      decideStatus (classifyConfidence c) q = .AVAILABLE) ∧
    (∀ c q : ℚ, (classifyConfidence c = .MEDIUM ∨ classifyConfidence c = .LOW ∨ q ≤ 0.7) →
      decideStatus (classifyConfidence c) q = .NEEDS_REVIEW) ∧
    (∀ c q : ℚ, classifyConfidence c = .UNCERTAIN → 0.7 < q →
      decideStatus (classifyConfidence c) q = .CRITICAL) ∧
    (classifyConfidence 0.45 = .UNCERTAIN ∧
     decideStatus (classifyConfidence 0.45) 0.9 = .CRITICAL ∧
     decideStatus (classifyConfidence 0.45) 0.9 ≠ .NEEDS_REVIEW) := by
  refine ⟨rfl, ?_, ?_, ?_, ?_⟩
  · intro c q hc hq
    rw [hc]
    unfold decideStatus
    rw [if_pos ⟨rfl, hq⟩]
  · intro c q hc
    unfold decideStatus
    rcases hc with h | h | h
    · rw [h]
      simp
    · rw [h]
      simp
    · have hnot : ¬(classifyConfidence c = .HIGH ∧ 0.7 < q) := by
        rintro ⟨_, h2⟩
        linarith
      rw [if_neg hnot, if_pos (Or.inr h)]
  · intro c q hc hq
    rw [hc]
    unfold decideStatus
    have h1 : ¬(ConfidenceLevel.UNCERTAIN = ConfidenceLevel.HIGH ∧ 0.7 < q) := by
      rintro ⟨h, _⟩
      exact ConfidenceLevel.noConfusion h
    have h2 : ¬((ConfidenceLevel.UNCERTAIN = ConfidenceLevel.MEDIUM ∨
        ConfidenceLevel.UNCERTAIN = ConfidenceLevel.LOW) ∨ q ≤ 0.7) := by
      rintro ((h | h) | h)
      · exact ConfidenceLevel.noConfusion h
      · exact ConfidenceLevel.noConfusion h
      · linarith
    rw [if_neg h1, if_neg h2]
  · have h045 : classifyConfidence 0.45 = .UNCERTAIN := by
      unfold classifyConfidence
      norm_num
    refine ⟨h045, ?_, ?_⟩
    · rw [h045]
      unfold decideStatus
      norm_num
      decide
    · rw [h045]
      unfold decideStatus
      norm_num
      decide

/-- Witness for C1 discharging the quantified branch hypotheses at
concrete inputs. -/
theorem claim1_status_transition_witness :
    classifyConfidence 0.85 = .HIGH ∧ (0.7 : ℚ) < 0.8 ∧
    decideStatus (classifyConfidence 0.85) 0.8 = .AVAILABLE ∧
    classifyConfidence 0.65 = .MEDIUM ∧
    decideStatus (classifyConfidence 0.65) 0.8 = .NEEDS_REVIEW ∧
    classifyConfidence 0.3 = .UNCERTAIN ∧
    decideStatus (classifyConfidence 0.3) 0.8 = .CRITICAL := by
  have h := claim1_status_transition 0 ⟨"x", 0, []⟩ "img" 0 none []
  have hH : classifyConfidence 0.85 = .HIGH := by unfold classifyConfidence; norm_num
  have hM : classifyConfidence 0.65 = .MEDIUM := by unfold classifyConfidence; norm_num
  have hU : classifyConfidence 0.3 = .UNCERTAIN := by unfold classifyConfidence; norm_num
  exact ⟨hH, by norm_num, h.2.1 0.85 0.8 hH (by norm_num),
    hM, h.2.2.1 0.65 0.8 (Or.inl hM),
    hU, h.2.2.2.1 0.3 0.8 hU (by norm_num)⟩

/-- Whether the stored record of a kind has tier HIGH (the first branch of
the tally). -/
def kindTierHigh (store : List (String × StoredState)) (k : String) : Bool :=
  match store.lookup k with
  | some s => s.confidenceLevel == .HIGH
  | none => false

/-- Whether the stored record of a kind has status NEEDS_REVIEW without
having tier HIGH (the elif branch of the tally). -/
def kindReviewNotHigh (store : List (String × StoredState)) (k : String) : Bool :=
  match store.lookup k with
  | some s => !(s.confidenceLevel == .HIGH) && s.status == .NEEDS_REVIEW
  | none => false

theorem tallyGo_spec (store : List (String × StoredState)) :
    ∀ (kinds : List String) (acc : ℕ × ℕ),
      tallyGo store kinds acc =
        (acc.1 + (kinds.filter (kindTierHigh store)).length,
         acc.2 + (kinds.filter (kindReviewNotHigh store)).length) := by
  intro kinds
  induction kinds with
  | nil => intro acc; simp [tallyGo]
  | cons k rest ih =>
    intro acc
    rw [tallyGo, ih, List.filter_cons, List.filter_cons]
    cases hl : store.lookup k with
    | none => simp [tallyStep, kindTierHigh, kindReviewNotHigh, hl]
    | some s =>
      by_cases h1 : s.confidenceLevel = .HIGH
      · simp [tallyStep, kindTierHigh, kindReviewNotHigh, hl, h1]
        omega
      · by_cases h2 : s.status = .NEEDS_REVIEW
        · simp [tallyStep, kindTierHigh, kindReviewNotHigh, hl, h1, h2]
          omega
        · simp [tallyStep, kindTierHigh, kindReviewNotHigh, hl, h1, h2]

/-- C6 counterexample: one catalog kind stored with tier HIGH and status
NEEDS_REVIEW (reachable, e.g. confidence 0.9 with placement score 0.5)
is tallied as (high=1, needs_review=0), not in both tallies: the number of
kinds whose stored status is NEEDS_REVIEW is 1 while the needs_review
tally is 0. -/
theorem claim6_tally_counterexample :
    tallyCounts [("fire_extinguisher",
        ({ confidenceLevel := .HIGH, status := .NEEDS_REVIEW } : StoredState))] = (1, 0) ∧
    (equipmentKinds.filter (fun k =>
      (([("fire_extinguisher",
          ({ confidenceLevel := .HIGH, status := .NEEDS_REVIEW } : StoredState))].lookup k).any
        (fun s => s.status == .NEEDS_REVIEW)))).length = 1 ∧
    classifyConfidence 0.9 = .HIGH ∧
    decideStatus .HIGH 0.5 = .NEEDS_REVIEW := by
  refine ⟨by decide, by decide, ?_, ?_⟩
  · unfold classifyConfidence
    norm_num
  · unfold decideStatus
    norm_num

/-- C6 as amended: high_confidence_detections counts the catalog kinds with
tier HIGH, while needs_review counts only the catalog kinds whose status is
NEEDS_REVIEW and whose tier is not HIGH: a kind with both goes to the first
tally only. -/
theorem claim6_tally_amended (store : List (String × StoredState)) :
    tallyCounts store =
      ((equipmentKinds.filter (kindTierHigh store)).length,
       (equipmentKinds.filter (kindReviewNotHigh store)).length) := by
  unfold tallyCounts
  rw [tallyGo_spec]
  simp

/-- C3 counterexample: with a well-formed 4-element bbox, a zero image
dimension does not produce the InvalidGeometry error dict but raises
ZeroDivisionError, and negative image dimensions are accepted and succeed. -/
theorem claim3_geometry_counterexample :
    analyzePosition ⟨"fire_extinguisher", 0.9, [10, 20, 30, 40]⟩ ((0 : ℤ), 480) =
      .zeroDivisionError ∧
    analyzePosition ⟨"fire_extinguisher", 0.9, [10, 20, 30, 40]⟩ ((-5 : ℤ), (-5 : ℤ)) ≠
      .invalidBBox ∧
    analyzePosition ⟨"fire_extinguisher", 0.9, [10, 20, 30, 40]⟩ ((-5 : ℤ), (-5 : ℤ)) ≠
      .zeroDivisionError := by
  refine ⟨?_, ?_, ?_⟩ <;> simp [analyzePosition]

/-- C3 as amended: analyze_position returns the InvalidGeometry error dict
iff the bbox does not have exactly 4 elements, regardless of the image
dimensions; with a 4-element bbox a zero dimension raises ZeroDivisionError
and any nonzero dimensions (negative included) succeed. -/
theorem claim3_geometry_errors (det : Detection) (W H : ℤ) :
    (analyzePosition det (W, H) = .invalidBBox ↔ det.bbox.length ≠ 4) ∧
    (det.bbox.length = 4 → (W = 0 ∨ H = 0) →
      analyzePosition det (W, H) = .zeroDivisionError) ∧
    (det.bbox.length = 4 → W ≠ 0 → H ≠ 0 →
      ∃ a, analyzePosition det (W, H) = .ok a) := by
  obtain ⟨label, conf, bbox⟩ := det
  match bbox with
  | [] =>
    exact ⟨by simp [analyzePosition], by simp, by simp⟩
  | [x] =>
    exact ⟨by simp [analyzePosition], by simp, by simp⟩
  | [x, y] =>
    exact ⟨by simp [analyzePosition], by simp, by simp⟩
  | [x, y, w] =>
    exact ⟨by simp [analyzePosition], by simp, by simp⟩
  | x :: y :: w :: h :: e :: tail =>
    refine ⟨?_, ?_, ?_⟩
    · simp [analyzePosition]
    · intro hlen
      simp at hlen
    · intro hlen
      simp at hlen
  | [x, y, w, h] =>
    refine ⟨?_, ?_, ?_⟩
    · simp only [analyzePosition]
      constructor
      · intro hh
        split_ifs at hh
      · intro hh
        simp at hh
    · intro _ hWH
      simp only [analyzePosition]
      rw [if_pos hWH]
    · intro _ hW hH
      refine ⟨mkAnalysis label conf x y w h W H, ?_⟩
      simp only [analyzePosition]
      rw [if_neg (by simp [hW, hH])]

/-- Witness for C3 on a valid bbox and positive dimensions. -/
theorem claim3_geometry_errors_witness :
    (([10, 20, 30, 40] : List ℚ).length = 4) ∧ ((640 : ℤ) ≠ 0) ∧ ((480 : ℤ) ≠ 0) ∧
    ∃ a, analyzePosition ⟨"fire_extinguisher", 0.9, [10, 20, 30, 40]⟩ ((640 : ℤ), 480) = .ok a :=
  ⟨by simp, by decide, by decide,
    (claim3_geometry_errors ⟨"fire_extinguisher", 0.9, [10, 20, 30, 40]⟩ 640 480).2.2
      (by simp) (by decide) (by decide)⟩

theorem analyzeAccessibility_bounds (cx cy s : ℚ) (hcx0 : 0 ≤ cx) (hcx1 : cx ≤ 1)
    (hcy0 : 0 ≤ cy) (hcy1 : cy ≤ 1) (hs0 : 0 ≤ s) :
    0 ≤ (analyzeAccessibility cx cy s).score ∧ (analyzeAccessibility cx cy s).score ≤ 1 := by
  unfold analyzeAccessibility
  simp only
  have e1 : min (min cx (1 - cx)) (min cy (1 - cy)) ≤ cx :=
    le_trans (min_le_left _ _) (min_le_left _ _)
  have e2 : min (min cx (1 - cx)) (min cy (1 - cy)) ≤ 1 - cx :=
    le_trans (min_le_left _ _) (min_le_right _ _)
  have e0 : 0 ≤ min (min cx (1 - cx)) (min cy (1 - cy)) :=
    le_min (le_min hcx0 (by linarith)) (le_min hcy0 (by linarith))
  have habs : |cy - 0.6| ≤ 0.6 := abs_le.mpr ⟨by linarith, by linarith⟩
  have habs0 : 0 ≤ |cy - 0.6| := abs_nonneg _
  have hm1 : min 1 (s * 5) ≤ 1 := min_le_left _ _
  have hm0 : (0 : ℚ) ≤ min 1 (s * 5) := le_min (by norm_num) (by linarith)
  constructor
  · linarith
  · linarith

theorem calculatePlacementScore_bounds (cx cy s conf : ℚ) (hcx0 : 0 ≤ cx) (hcx1 : cx ≤ 1)
    (hcy0 : 0 ≤ cy) (hcy1 : cy ≤ 1) (hs0 : 0 ≤ s) (hc0 : 0 ≤ conf) (hc1 : conf ≤ 1) :
    0 ≤ calculatePlacementScore cx cy s conf ∧ calculatePlacementScore cx cy s conf ≤ 1 := by
  unfold calculatePlacementScore
  simp only
  have e1 : min (min cx (1 - cx)) (min cy (1 - cy)) ≤ cx :=
    le_trans (min_le_left _ _) (min_le_left _ _)
  have e2 : min (min cx (1 - cx)) (min cy (1 - cy)) ≤ 1 - cx :=
    le_trans (min_le_left _ _) (min_le_right _ _)
  have e0 : 0 ≤ min (min cx (1 - cx)) (min cy (1 - cy)) :=
    le_min (le_min hcx0 (by linarith)) (le_min hcy0 (by linarith))
  have hv0 : (0 : ℚ) ≤ min 1 (s * 3) := le_min (by norm_num) (by linarith)
  have hv1 : min 1 (s * 3) ≤ 1 := min_le_left _ _
  have habs : |cy - 0.5| ≤ 0.5 := abs_le.mpr ⟨by linarith, by linarith⟩
  have habs0 : 0 ≤ |cy - 0.5| := abs_nonneg _
  have hw0 : (0 : ℚ) ≤ 1 - |cy - 0.5| := by linarith
  have hw1 : 1 - |cy - 0.5| ≤ 1 := by linarith
  have hvis0 : 0 ≤ min 1 (s * 3) * (1 - |cy - 0.5|) := mul_nonneg hv0 hw0
  have hvis1 : min 1 (s * 3) * (1 - |cy - 0.5|) ≤ 1 := mul_le_one₀ hv1 hw0 hw1
  have hsum0 : (0 : ℚ) ≤
      min (min cx (1 - cx)) (min cy (1 - cy)) * 2 * 0.3 +
      min 1 (s * 3) * (1 - |cy - 0.5|) * 0.3 + conf * 0.4 := by linarith
  constructor
  · exact le_min (by norm_num) hsum0
  · exact le_trans (min_le_right _ _) (by linarith)

/-- C4 counterexample: a detection whose bbox has 4 non-negative entries on
a positive 100 by 100 image, but lies outside the frame, yields a placement
score and an accessibility score that are both negative. -/
theorem claim4_scores_counterexample :
    ∃ a, analyzePosition ⟨"oxygen_tank", 0.5, [0, 1000, 10, 10]⟩ ((100 : ℤ), 100) = .ok a ∧
      a.placementScore < 0 ∧ a.accessibility.score < 0 := by
  refine ⟨_, rfl, ?_, ?_⟩
  · norm_num [mkAnalysis, calculatePlacementScore, min_def, abs]
  · norm_num [mkAnalysis, analyzeAccessibility, min_def, abs]

/-- C4 as amended: for a detection whose 4-element non-negative bbox lies
inside the positive image frame and whose confidence is in [0,1], both the
placement score and the accessibility score are within [0,1]. -/
theorem claim4_scores_bounded (label : String) (conf x y w h : ℚ) (W H : ℤ)
    (hx : 0 ≤ x) (hy : 0 ≤ y) (hw : 0 ≤ w) (hh : 0 ≤ h)
    (hW : 0 < W) (hH : 0 < H)
    (hxw : x + w ≤ (W : ℚ)) (hyh : y + h ≤ (H : ℚ))
    (hc0 : 0 ≤ conf) (hc1 : conf ≤ 1) :
    ∃ a, analyzePosition ⟨label, conf, [x, y, w, h]⟩ (W, H) = .ok a ∧
      0 ≤ a.placementScore ∧ a.placementScore ≤ 1 ∧
      0 ≤ a.accessibility.score ∧ a.accessibility.score ≤ 1 := by
  have hWQ : (0 : ℚ) < (W : ℚ) := by exact_mod_cast hW
  have hHQ : (0 : ℚ) < (H : ℚ) := by exact_mod_cast hH
  have hcx0 : 0 ≤ (x + w / 2) / (W : ℚ) := div_nonneg (by linarith) hWQ.le
  have hcx1 : (x + w / 2) / (W : ℚ) ≤ 1 := by
    rw [div_le_one hWQ]
    linarith
  have hcy0 : 0 ≤ (y + h / 2) / (H : ℚ) := div_nonneg (by linarith) hHQ.le
  have hcy1 : (y + h / 2) / (H : ℚ) ≤ 1 := by
    rw [div_le_one hHQ]
    linarith
  have hs0 : 0 ≤ (w * h) / ((W : ℚ) * (H : ℚ)) :=
    div_nonneg (mul_nonneg hw hh) (mul_nonneg hWQ.le hHQ.le)
  refine ⟨mkAnalysis label conf x y w h W H, ?_, ?_, ?_, ?_, ?_⟩
  · simp only [analyzePosition]
    rw [if_neg (by simp [hW.ne', hH.ne'])]
  · exact (calculatePlacementScore_bounds _ _ _ _ hcx0 hcx1 hcy0 hcy1 hs0 hc0 hc1).1
  · exact (calculatePlacementScore_bounds _ _ _ _ hcx0 hcx1 hcy0 hcy1 hs0 hc0 hc1).2
  · exact (analyzeAccessibility_bounds _ _ _ hcx0 hcx1 hcy0 hcy1 hs0).1
  · exact (analyzeAccessibility_bounds _ _ _ hcx0 hcx1 hcy0 hcy1 hs0).2

/-- Witness for C4 on an in-frame detection. -/
theorem claim4_scores_bounded_witness :
    ((0 : ℚ) ≤ 40 ∧ (0 : ℚ) ≤ 20 ∧ (0 : ℤ) < 100 ∧ (40 : ℚ) + 20 ≤ 100 ∧
      (0 : ℚ) ≤ 0.8 ∧ (0.8 : ℚ) ≤ 1) ∧
    ∃ a, analyzePosition ⟨"fire_extinguisher", 0.8, [40, 40, 20, 20]⟩ ((100 : ℤ), 100) = .ok a ∧
      0 ≤ a.placementScore ∧ a.placementScore ≤ 1 ∧
      0 ≤ a.accessibility.score ∧ a.accessibility.score ≤ 1 :=
  ⟨⟨by norm_num, by norm_num, by norm_num, by norm_num, by norm_num, by norm_num⟩,
    claim4_scores_bounded "fire_extinguisher" 0.8 40 40 20 20 100 100
      (by norm_num) (by norm_num) (by norm_num) (by norm_num) (by norm_num) (by norm_num)
      (by norm_num) (by norm_num) (by norm_num) (by norm_num)⟩

theorem firstTrigger_eq_find (nowS : String) (rule : AlertRule) (dets : List Detection) :
    firstTrigger nowS rule dets = (dets.find? (ruleMatches rule)).map (mkTriggered nowS rule) := by
  induction dets with
  | nil => rfl
  | cons d rest ih =>
    by_cases h : ruleMatches rule d
    · show (if ruleMatches rule d then some (mkTriggered nowS rule d)
            else firstTrigger nowS rule rest) = _
      rw [if_pos h, List.find?_cons_of_pos _ h]
      rfl
    · show (if ruleMatches rule d then some (mkTriggered nowS rule d)
            else firstTrigger nowS rule rest) = _
      rw [if_neg h, List.find?_cons_of_neg _ (by simpa using h), ih]

theorem checkAlerts_cons (nowS : String) (a : AlertRule) (rest : List AlertRule)
    (dets : List Detection) :
    checkAlerts nowS (a :: rest) dets =
      (if a.active then (dets.find? (ruleMatches a)).map (mkTriggered nowS a)
       else none).toList ++ checkAlerts nowS rest dets := by
  by_cases ha : a.active
  · rw [if_pos ha]
    show (if !a.active then checkAlerts nowS rest dets
          else
            match firstTrigger nowS a dets with
            | some t => t :: checkAlerts nowS rest dets
            | none => checkAlerts nowS rest dets) = _
    rw [ha]
    simp only [Bool.not_true, Bool.false_eq_true, if_false]
    rw [firstTrigger_eq_find]
    cases hft : dets.find? (ruleMatches a) with
    | none => simp [hft]
    | some d => simp [hft]
  · rw [if_neg ha]
    show (if !a.active then checkAlerts nowS rest dets
          else
            match firstTrigger nowS a dets with
            | some t => t :: checkAlerts nowS rest dets
            | none => checkAlerts nowS rest dets) = _
    have hfalse : a.active = false := by simpa using ha
    rw [hfalse]
    simp

/-- C7: a configured rule fires exactly when it is active and some
detection in the batch matches its label case-insensitively with
sufficient confidence; it fires at most once per batch, on the first
matching detection, and the record carries the rule id, rule name, matched
label, matched confidence and timestamp. -/
theorem claim7_check_alerts (nowS : String) (alerts : List AlertRule) (dets : List Detection) :
    (checkAlerts nowS alerts dets =
      alerts.filterMap (fun a =>
        if a.active then (dets.find? (ruleMatches a)).map (mkTriggered nowS a) else none)) ∧
    (∀ a : AlertRule, (dets.find? (ruleMatches a)).isSome ↔
      ∃ d ∈ dets, ruleMatches a d = true) ∧
    (∀ (a : AlertRule) (pre : List Detection) (d : Detection) (post : List Detection),
      dets = pre ++ d :: post → ruleMatches a d = true →
      (∀ d2 ∈ pre, ruleMatches a d2 = false) →
      dets.find? (ruleMatches a) = some d) := by
  refine ⟨?_, ?_, ?_⟩
  · induction alerts with
    | nil => rfl
    | cons a rest ih =>
      rw [checkAlerts_cons, ih, List.filterMap_cons]
      by_cases ha : a.active
      · rw [if_pos ha]
        cases hft : dets.find? (ruleMatches a) <;> simp [hft]
      · rw [if_neg ha]
        simp
  · intro a
    exact List.find?_isSome
  · intro a pre d post hdets hmatch hpre
    subst hdets
    revert hpre
    induction pre with
    | nil =>
      intro _
      simpa using List.find?_cons_of_pos post hmatch
    | cons p pre ih =>
      intro hpre
      have hp : ruleMatches a p = false := hpre p (by simp)
      have heq : (p :: pre) ++ d :: post = p :: (pre ++ d :: post) := by simp
      rw [heq, List.find?_cons_of_neg _ (by simp [hp])]
      exact ih (fun d2 hd2 => hpre d2 (by simp [hd2]))

/-- A concrete alert rule used for instantiating C7. -/
def sampleRule : AlertRule :=
  { id := "alert_1", name := "Fire watch", label := "Fire Extinguisher",
    minConfidence := 0, active := true }

/-- A concrete non-matching detection used for instantiating C7. -/
def sampleMiss : Detection := { label := "toolbox", confidence := 1, bbox := [] }

/-- A concrete matching detection used for instantiating C7. -/
def sampleHit : Detection := { label := "FIRE EXTINGUISHER", confidence := 1, bbox := [] }

/-- Witness for C7: the rule skips the first, non-matching detection and
fires once on the second. -/
theorem claim7_check_alerts_witness :
    ruleMatches sampleRule sampleHit = true ∧
    ruleMatches sampleRule sampleMiss = false ∧
    [sampleMiss, sampleHit].find? (ruleMatches sampleRule) = some sampleHit ∧
    checkAlerts "t0" [sampleRule] [sampleMiss, sampleHit] =
      [mkTriggered "t0" sampleRule sampleHit] := by
  obtain ⟨h1, _, h3⟩ := claim7_check_alerts "t0" [sampleRule] [sampleMiss, sampleHit]
  have hm : ruleMatches sampleRule sampleHit = true := by decide
  have hn : ruleMatches sampleRule sampleMiss = false := by decide
  have hfind : [sampleMiss, sampleHit].find? (ruleMatches sampleRule) = some sampleHit :=
    h3 sampleRule [sampleMiss] sampleHit [] rfl hm
      (fun d2 hd2 => by rw [List.mem_singleton.mp hd2]; exact hn)
  refine ⟨hm, hn, hfind, ?_⟩
  rw [h1]
  have hact : sampleRule.active = true := rfl
  simp [List.filterMap_cons, hact, hfind]

theorem foldl_max_mem (c : ℚ) (l : List ℚ) : l.foldl max c ∈ c :: l := by
  induction l generalizing c with
  | nil => simp [List.foldl]
  | cons a l ih =>
    have h := ih (max c a)
    show l.foldl max (max c a) ∈ c :: a :: l
    rcases List.mem_cons.mp h with h | h
    · rcases max_choice c a with hm | hm
      · rw [h, hm]
        simp
      · rw [h, hm]
        simp
    · simp [h]

theorem le_foldl_max (c : ℚ) (l : List ℚ) : ∀ x ∈ c :: l, x ≤ l.foldl max c := by
  induction l generalizing c with
  | nil =>
    intro x hx
    simp at hx
    simp [hx, List.foldl]
  | cons a l ih =>
    intro x hx
    show x ≤ l.foldl max (max c a)
    rcases List.mem_cons.mp hx with h | h
    · subst h
      exact le_trans (le_max_left x a) (ih (max x a) (max x a) (by simp))
    · rcases List.mem_cons.mp h with h2 | h2
      · subst h2
        exact le_trans (le_max_right c x) (ih (max c x) (max c x) (by simp))
      · exact ih (max c a) x (by simp [h2])

theorem foldl_min_mem (c : ℚ) (l : List ℚ) : l.foldl min c ∈ c :: l := by
  induction l generalizing c with
  | nil => simp [List.foldl]
  | cons a l ih =>
    have h := ih (min c a)
    show l.foldl min (min c a) ∈ c :: a :: l
    rcases List.mem_cons.mp h with h | h
    · rcases min_choice c a with hm | hm
      · rw [h, hm]
        simp
      · rw [h, hm]
        simp
    · simp [h]

theorem foldl_min_le (c : ℚ) (l : List ℚ) : ∀ x ∈ c :: l, l.foldl min c ≤ x := by
  induction l generalizing c with
  | nil =>
    intro x hx
    simp at hx
    simp [hx, List.foldl]
  | cons a l ih =>
    intro x hx
    show l.foldl min (min c a) ≤ x
    rcases List.mem_cons.mp hx with h | h
    · subst h
      exact le_trans (ih (min x a) (min x a) (by simp)) (min_le_left x a)
    · rcases List.mem_cons.mp h with h2 | h2
      · subst h2
        exact le_trans (ih (min c x) (min c x) (by simp)) (min_le_right c x)
      · exact ih (min c a) x (by simp [h2])

theorem getLastD_map_comm (g : HistoryEntry → ℚ) (l : List HistoryEntry) :
    ∀ d : HistoryEntry, (l.map g).getLastD (g d) = g (l.getLastD d) := by
  induction l with
  | nil => intro d; rfl
  | cons a l ih =>
    intro d
    rw [List.map_cons, List.getLastD_cons, List.getLastD_cons, ih]

set_option maxHeartbeats 2000000

theorem trendsOfRecent_cons (kind : String) (days : ℚ) (e0 : HistoryEntry)
    (rest : List HistoryEntry) :
    trendsOfRecent kind days (e0 :: rest) =
      some
        { equipmentType := kind
          periodDays := days
          totalDetections := rest.length + 1
          averageConfidence :=
            (e0.confidence :: rest.map (fun e => e.confidence)).sum / ((rest.length + 1 : ℕ) : ℚ)
          confidenceTrend :=
            if (e0.confidence :: rest.map (fun e => e.confidence)).getLastD 0 > e0.confidence
            then "improving" else "declining"
          averagePlacementScore :=
            (e0.placementScore :: rest.map (fun e => e.placementScore)).sum /
              ((rest.length + 1 : ℕ) : ℚ)
          highConfidenceDetections :=
            ((e0.confidence :: rest.map (fun e => e.confidence)).filter
              (fun c => decide (c ≥ 0.8))).length
          lowConfidenceDetections :=
            ((e0.confidence :: rest.map (fun e => e.confidence)).filter
              (fun c => decide (c < 0.6))).length
          detectionFrequency := ((rest.length + 1 : ℕ) : ℚ) / days
          latestDetectionTimestamp := ((e0 :: rest).getLastD e0).timestamp
          consistencyScore :=
            1 - (rest.foldl (fun m e => max m e.confidence) e0.confidence -
                 rest.foldl (fun m e => min m e.confidence) e0.confidence) } := rfl

/-- C8: on a kind whose in-window history is non-empty, the trends dict is
produced with consistency_score equal to 1 minus the spread between the
maximal and minimal window confidence, and confidence_trend is exactly
"improving" when the last window entry's confidence strictly exceeds the
first one's, else "declining". -/
theorem claim8_trends (store : List (String × List HistoryEntry)) (kind : String)
    (nowT days : ℚ) (history : List HistoryEntry) (e0 : HistoryEntry)
    (rest : List HistoryEntry)
    (hlook : store.lookup kind = some history)
    (hfilter : history.filter (fun e => decide (nowT - days * secondsPerDay ≤ e.timestamp)) =
      e0 :: rest) :
    ∃ t, getEquipmentTrends store kind nowT days = some t ∧
      (∃ mx mn : ℚ,
        mx ∈ (e0 :: rest).map (fun e => e.confidence) ∧
        mn ∈ (e0 :: rest).map (fun e => e.confidence) ∧
        (∀ c ∈ (e0 :: rest).map (fun e => e.confidence), mn ≤ c ∧ c ≤ mx) ∧
        t.consistencyScore = 1 - (mx - mn)) ∧
      (t.confidenceTrend = "improving" ∨ t.confidenceTrend = "declining") ∧
      (t.confidenceTrend = "improving" ↔
        e0.confidence < ((e0 :: rest).getLastD e0).confidence) := by
  have hmain : getEquipmentTrends store kind nowT days =
      trendsOfRecent kind days (e0 :: rest) := by
    unfold getEquipmentTrends
    rw [hlook]
    show trendsOfRecent kind days
      (history.filter (fun e => decide (nowT - days * secondsPerDay ≤ e.timestamp))) = _
    rw [hfilter]
  have hlast : (e0.confidence :: rest.map (fun e => e.confidence)).getLastD 0 =
      ((e0 :: rest).getLastD e0).confidence := by
    rw [List.getLastD_cons, List.getLastD_cons]
    exact getLastD_map_comm (fun e => e.confidence) rest e0
  rw [hmain, trendsOfRecent_cons]
  refine ⟨_, rfl, ?_, ?_, ?_⟩
  · refine ⟨rest.foldl (fun m e => max m e.confidence) e0.confidence,
      rest.foldl (fun m e => min m e.confidence) e0.confidence, ?_, ?_, ?_, rfl⟩
    · have hfm : rest.foldl (fun m e => max m e.confidence) e0.confidence =
          (rest.map (fun e => e.confidence)).foldl max e0.confidence :=
        (List.foldl_map (fun e => e.confidence) max rest e0.confidence).symm
      rw [hfm, List.map_cons]
      exact foldl_max_mem e0.confidence (rest.map (fun e => e.confidence))
    · have hfm : rest.foldl (fun m e => min m e.confidence) e0.confidence =
          (rest.map (fun e => e.confidence)).foldl min e0.confidence :=
        (List.foldl_map (fun e => e.confidence) min rest e0.confidence).symm
      rw [hfm, List.map_cons]
      exact foldl_min_mem e0.confidence (rest.map (fun e => e.confidence))
    · intro c hc
      rw [List.map_cons] at hc
      have hfm : rest.foldl (fun m e => max m e.confidence) e0.confidence =
          (rest.map (fun e => e.confidence)).foldl max e0.confidence :=
        (List.foldl_map (fun e => e.confidence) max rest e0.confidence).symm
      have hfn : rest.foldl (fun m e => min m e.confidence) e0.confidence =
          (rest.map (fun e => e.confidence)).foldl min e0.confidence :=
        (List.foldl_map (fun e => e.confidence) min rest e0.confidence).symm
      rw [hfm, hfn]
      exact ⟨foldl_min_le e0.confidence (rest.map (fun e => e.confidence)) c hc,
        le_foldl_max e0.confidence (rest.map (fun e => e.confidence)) c hc⟩
  · by_cases h : e0.confidence <
        (e0.confidence :: rest.map (fun e => e.confidence)).getLastD 0
    · left
      simp only [gt_iff_lt, if_pos h]
    · right
      simp only [gt_iff_lt, if_neg h]
  · rw [hlast]
    by_cases h : e0.confidence < ((e0 :: rest).getLastD e0).confidence
    · simp only [gt_iff_lt, if_pos h]
      first
      | trivial
      | exact ⟨fun _ => h, fun _ => trivial⟩
      | exact ⟨fun _ => h, fun _ => rfl⟩
    · simp only [gt_iff_lt, if_neg h]
      constructor
      · intro hc
        exact absurd hc (by decide)
      · intro hlt
        exact absurd hlt h

/-- First entry of the concrete trend history. -/
def trendEntry1 : HistoryEntry :=
  { timestamp := 345600, confidence := 0.5, bbox := [], imagePath := "p1", placementScore := 0.5 }

/-- Second entry of the concrete trend history. -/
def trendEntry2 : HistoryEntry :=
  { timestamp := 432000, confidence := 0.7, bbox := [], imagePath := "p2", placementScore := 0.6 }

/-- Third entry of the concrete trend history. -/
def trendEntry3 : HistoryEntry :=
  { timestamp := 518400, confidence := 0.9, bbox := [], imagePath := "p3", placementScore := 0.7 }

/-- Witness for C8 on the spec's example: window confidences 0.5, 0.7, 0.9
give trend "improving" and consistency score 0.6. -/
theorem claim8_trends_witness :
    ([("fire_extinguisher", [trendEntry1, trendEntry2, trendEntry3])].lookup
        "fire_extinguisher" = some [trendEntry1, trendEntry2, trendEntry3]) ∧
    ([trendEntry1, trendEntry2, trendEntry3].filter
        (fun e => decide ((864000 : ℚ) - 7 * secondsPerDay ≤ e.timestamp)) =
      trendEntry1 :: [trendEntry2, trendEntry3]) ∧
    ∃ t, getEquipmentTrends [("fire_extinguisher", [trendEntry1, trendEntry2, trendEntry3])]
        "fire_extinguisher" 864000 7 = some t ∧
      t.consistencyScore = 1 - (0.9 - 0.5) ∧ t.confidenceTrend = "improving" := by
  have hlook : ([("fire_extinguisher", [trendEntry1, trendEntry2, trendEntry3])].lookup
      "fire_extinguisher" = some [trendEntry1, trendEntry2, trendEntry3]) := rfl
  have hfilter : ([trendEntry1, trendEntry2, trendEntry3].filter
      (fun e => decide ((864000 : ℚ) - 7 * secondsPerDay ≤ e.timestamp)) =
      trendEntry1 :: [trendEntry2, trendEntry3]) := by
    norm_num [List.filter, trendEntry1, trendEntry2, trendEntry3, secondsPerDay]
  obtain ⟨t, ht, ⟨mx, mn, hmx, hmn, hbounds, hcons⟩, _, hiff⟩ :=
    claim8_trends [("fire_extinguisher", [trendEntry1, trendEntry2, trendEntry3])]
      "fire_extinguisher" 864000 7 [trendEntry1, trendEntry2, trendEntry3]
      trendEntry1 [trendEntry2, trendEntry3] hlook hfilter
  refine ⟨hlook, hfilter, t, ht, ?_, ?_⟩
  · have hmx9 : (0.9 : ℚ) ≤ mx := by
      refine (hbounds 0.9 ?_).2
      norm_num [trendEntry1, trendEntry2, trendEntry3]
    have hmn5 : mn ≤ (0.5 : ℚ) := by
      refine (hbounds 0.5 ?_).1
      norm_num [trendEntry1, trendEntry2, trendEntry3]
    have hmxmem : mx = (1/2 : ℚ) ∨ mx = (7/10 : ℚ) ∨ mx = (9/10 : ℚ) := by
      have hm := hmx
      norm_num [trendEntry1, trendEntry2, trendEntry3] at hm
      exact hm
    have hmnmem : mn = (1/2 : ℚ) ∨ mn = (7/10 : ℚ) ∨ mn = (9/10 : ℚ) := by
      have hm := hmn
      norm_num [trendEntry1, trendEntry2, trendEntry3] at hm
      exact hm
    have hmx' : mx = (9/10 : ℚ) := by
      rcases hmxmem with h | h | h
      · rw [h] at hmx9
        norm_num at hmx9
      · rw [h] at hmx9
        norm_num at hmx9
      · exact h
    have hmn' : mn = (1/2 : ℚ) := by
      rcases hmnmem with h | h | h
      · exact h
      · rw [h] at hmn5
        norm_num at hmn5
      · rw [h] at hmn5
        norm_num at hmn5
    rw [hcons, hmx', hmn']
    norm_num
  · refine hiff.mpr ?_
    show trendEntry1.confidence <
      (([trendEntry1, trendEntry2, trendEntry3]).getLastD trendEntry1).confidence
    rw [List.getLastD_cons, List.getLastD_cons, List.getLastD_cons]
    norm_num [trendEntry1, trendEntry3, List.getLastD]

/-- C10: update_equipment_detection never stores the MISSING status: the
written status is always AVAILABLE, NEEDS_REVIEW or CRITICAL. -/
theorem claim10_update_never_missing (nowT : ℚ) (d : Detection) (img : String) (p : ℚ)
    (prev : Option EquipmentState) (hist : List HistoryEntry) :
    ((updateEquipmentDetection nowT d img p prev hist).1.status = .AVAILABLE ∨
     (updateEquipmentDetection nowT d img p prev hist).1.status = .NEEDS_REVIEW ∨
     (updateEquipmentDetection nowT d img p prev hist).1.status = .CRITICAL) ∧
    (updateEquipmentDetection nowT d img p prev hist).1.status ≠ .MISSING := by
  have h : (updateEquipmentDetection nowT d img p prev hist).1.status =
      decideStatus (classifyConfidence d.confidence) p := rfl
  rw [h]
  unfold decideStatus
  split_ifs <;> simp

theorem reportFold_entries (hl : List Snapshot) (cfg : List (String × Priority)) :
    ∀ acc : List (String × EquipmentReportEntry) × ℤ,
      (cfg.foldl (reportStep hl) acc).1 =
        acc.1 ++ cfg.map (fun kc => (kc.1, reportEntryFor hl kc)) := by
  induction cfg with
  | nil => intro acc; simp
  | cons kc cfg ih =>
    intro acc
    rw [List.foldl_cons, ih]
    simp [reportStep]

theorem reportFold_score (hl : List Snapshot) (cfg : List (String × Priority)) :
    ∀ acc : List (String × EquipmentReportEntry) × ℤ,
      (cfg.foldl (reportStep hl) acc).2 =
        acc.2 - (cfg.map (fun kc =>
          penaltyFor (reportStatusFor (detectionRateFor hl kc.1)))).sum := by
  induction cfg with
  | nil => intro acc; simp
  | cons kc cfg ih =>
    intro acc
    rw [List.foldl_cons, ih]
    have hst : (reportEntryFor hl kc).status = reportStatusFor (detectionRateFor hl kc.1) := rfl
    simp [reportStep, hst]
    ring

theorem penalty_sum (l : List ReportStatus) :
    (l.map penaltyFor).sum =
      20 * (l.count .CRITICAL : ℤ) + 10 * (l.count .CONCERNING : ℤ) := by
  induction l with
  | nil => simp
  | cons a l ih =>
    cases a <;> simp [penaltyFor, List.count_cons, ih] <;> push_cast <;> ring

/-- The list of per-kind statuses the report assigns, in catalog order. -/
def reportStatuses (hl : List Snapshot) : List ReportStatus :=
  equipmentConfig.map (fun kc => reportStatusFor (detectionRateFor hl kc.1))

/-- C9: the report assigns AVAILABLE above detection rate 0.8, CONCERNING
above 0.5 and CRITICAL otherwise; the overall score is 100 minus 20 per
CRITICAL kind and 10 per CONCERNING kind with no lower clamp (it is
negative when all kinds are undetected); and with every rate equal to 1
the score is exactly 100 and the recommendations are exactly the standing
routine entry. -/
theorem claim9_safety_report (hl : List Snapshot) :
    ((generateCrewSafetyReport hl).equipmentStatus.map (fun p => (p.1, p.2.status)) =
      equipmentConfig.map (fun kc => (kc.1, reportStatusFor (detectionRateFor hl kc.1)))) ∧
    (∀ r : ℚ, (0.8 < r → reportStatusFor r = .AVAILABLE) ∧
      (0.5 < r → r ≤ 0.8 → reportStatusFor r = .CONCERNING) ∧
      (r ≤ 0.5 → reportStatusFor r = .CRITICAL)) ∧
    ((generateCrewSafetyReport hl).overallSafetyScore =
      100 - (20 * ((reportStatuses hl).count .CRITICAL : ℤ) +
             10 * ((reportStatuses hl).count .CONCERNING : ℤ))) ∧
    ((∀ kc ∈ equipmentConfig, detectionRateFor hl kc.1 = 1) →
      (generateCrewSafetyReport hl).overallSafetyScore = 100 ∧
      (generateCrewSafetyReport hl).recommendations = [routineRecommendation]) ∧
    (generateCrewSafetyReport []).overallSafetyScore = -40 := by
  have hscore : ∀ hl2 : List Snapshot, (generateCrewSafetyReport hl2).overallSafetyScore =
      100 - (20 * ((reportStatuses hl2).count .CRITICAL : ℤ) +
             10 * ((reportStatuses hl2).count .CONCERNING : ℤ)) := by
    intro hl2
    show (equipmentConfig.foldl (reportStep hl2) ([], 100)).2 = _
    rw [reportFold_score hl2 equipmentConfig ([], (100 : ℤ))]
    have hmm : equipmentConfig.map (fun kc =>
        penaltyFor (reportStatusFor (detectionRateFor hl2 kc.1))) =
        (reportStatuses hl2).map penaltyFor := by
      simp [reportStatuses, List.map_map]
    rw [hmm, penalty_sum]
  refine ⟨?_, ?_, hscore hl, ?_, ?_⟩
  · show ((equipmentConfig.foldl (reportStep hl) ([], 100)).1).map (fun p => (p.1, p.2.status)) = _
    rw [reportFold_entries hl equipmentConfig ([], (100 : ℤ))]
    simp [List.map_map]
    intro a b _
    rfl
  · intro r
    refine ⟨?_, ?_, ?_⟩
    · intro h
      unfold reportStatusFor
      split_ifs <;> first | rfl | linarith
    · intro h1 h2
      unfold reportStatusFor
      split_ifs <;> first | rfl | linarith
    · intro h
      unfold reportStatusFor
      split_ifs <;> first | rfl | linarith
  · intro hrate
    have hstat : ∀ kc ∈ equipmentConfig,
        reportStatusFor (detectionRateFor hl kc.1) = .AVAILABLE := by
      intro kc hkc
      rw [hrate kc hkc]
      unfold reportStatusFor
      norm_num
    have hc1 : (reportStatuses hl).count .CRITICAL = 0 := by
      rw [List.count_eq_zero]
      intro hmem
      rw [reportStatuses, List.mem_map] at hmem
      obtain ⟨kc, hkc, heq⟩ := hmem
      rw [hstat kc hkc] at heq
      exact ReportStatus.noConfusion heq
    have hc2 : (reportStatuses hl).count .CONCERNING = 0 := by
      rw [List.count_eq_zero]
      intro hmem
      rw [reportStatuses, List.mem_map] at hmem
      obtain ⟨kc, hkc, heq⟩ := hmem
      rw [hstat kc hkc] at heq
      exact ReportStatus.noConfusion heq
    constructor
    · rw [hscore hl, hc1, hc2]
      norm_num
    · have hentries : (equipmentConfig.foldl (reportStep hl) ([], (100 : ℤ))).1 =
          equipmentConfig.map (fun kc => (kc.1, reportEntryFor hl kc)) := by
        rw [reportFold_entries hl equipmentConfig ([], (100 : ℤ))]
        simp
      have hfilter : ((equipmentConfig.foldl (reportStep hl) ([], (100 : ℤ))).1.filter
          (fun p => decide (p.2.status = .CRITICAL))) = [] := by
        rw [hentries, List.filter_eq_nil_iff]
        intro p hp
        rw [List.mem_map] at hp
        obtain ⟨kc, hkc, heq⟩ := hp
        subst heq
        have hst : (reportEntryFor hl kc).status = reportStatusFor (detectionRateFor hl kc.1) :=
          rfl
        simp [hst, hstat kc hkc]
      show ((if (((equipmentConfig.foldl (reportStep hl) ([], 100)).1.filter
            (fun p => decide (p.2.status = .CRITICAL))).map (fun p => p.1)).isEmpty then
          ([] : List Recommendation)
        else
          [{ priority := "IMMEDIATE"
             action := "Locate and verify: " ++ String.intercalate ", "
               (((equipmentConfig.foldl (reportStep hl) ([], 100)).1.filter
                 (fun p => decide (p.2.status = .CRITICAL))).map (fun p => p.1))
             rationale := "Critical safety equipment not consistently detected" }]) ++
        [routineRecommendation]) = [routineRecommendation]
      rw [hfilter]
      simp
  · rw [hscore []]
    have hstatuses : reportStatuses [] = List.replicate 7 .CRITICAL := by
      norm_num [reportStatuses, equipmentConfig, detectionRateFor, reportStatusFor]
      rfl
    rw [hstatuses]
    decide

/-- One snapshot in which every catalog kind is detected, used to
instantiate C9. -/
def fullSnapshot : Snapshot :=
  { detections := [⟨"fire_extinguisher"⟩, ⟨"oxygen_tank"⟩, ⟨"nitrogen_tank"⟩,
      ⟨"first_aid_box"⟩, ⟨"fire_alarm"⟩, ⟨"safety_switch_panel"⟩, ⟨"emergency_phone"⟩]
    timestamp := "t1" }

/-- Witness for C9: with a history in which every catalog kind is always
detected, every detection rate is 1, the score is 100 and the
recommendations reduce to the routine entry. -/
theorem claim9_safety_report_witness :
    (∀ kc ∈ equipmentConfig, detectionRateFor [fullSnapshot] kc.1 = 1) ∧
    (generateCrewSafetyReport [fullSnapshot]).overallSafetyScore = 100 ∧
    (generateCrewSafetyReport [fullSnapshot]).recommendations = [routineRecommendation] := by
  have hrec : ∀ kc ∈ equipmentConfig, recentFor [fullSnapshot] kc.1 = [fullSnapshot] := by
    intro kc hkc
    fin_cases hkc <;> decide
  have hrate : ∀ kc ∈ equipmentConfig, detectionRateFor [fullSnapshot] kc.1 = 1 := by
    intro kc hkc
    have h1 := hrec kc hkc
    simp [detectionRateFor, h1]
  have h := (claim9_safety_report [fullSnapshot]).2.2.2.1 hrate
  exact ⟨hrate, h.1, h.2⟩

end EquipAnalysis
